import Mathlib

/-!
Shallow embedding of the `web-extension-sys` binding layer (`src/lib.rs`):
a wasm-bindgen wrapper around the browser host's `chrome.storage.local`,
`chrome.storage.sync` and `chrome.storage.onChanged` APIs.

Host dynamic values (`JsValue`) are modelled as a small inductive of plain
data, with objects as association lists of own string-keyed properties.
Host-facing extern primitives (`get`, `set`, `set` with callback,
`addListener`) do not compute anything in this layer; each invocation is
modelled as an emitted `HostCall` record so that theorems can speak about
which primitive was invoked, with which payload and which callback.
Fallible host operations return `Except`.
-/

set_option autoImplicit false

/-- The host runtime's dynamic value: `wasm_bindgen::JsValue`. Objects are
modelled by the association list of their own string-keyed properties. -/
inductive JsValue where
  | undefined
  | null
  | bool (b : Bool)
  | num (n : Int)
  | str (s : String)
  | obj (props : List (String × JsValue))

/-- Embeds `JsValue::is_undefined`. -/
def JsValue.isUndefined : JsValue → Bool
  | .undefined => true
  | _ => false

/-- Embeds `JsValue::as_string`: `some` exactly on JS strings. -/
def JsValue.asString : JsValue → Option String
  | .str s => some s
  | _ => none

/-- JS `ToPropertyKey` coercion for the value shapes of the model (property
keys used by this crate are always strings already). -/
def JsValue.toPropKey : JsValue → String
  | .undefined => "undefined"
  | .null => "null"
  | .bool b => if b then "true" else "false"
  | .num n => toString n
  | .str s => s
  | .obj _ => "[object Object]"

/-- First value stored under `key` in an own-property list. -/
def lookupProp : List (String × JsValue) → String → Option JsValue
  | [], _ => none
  | (k, v) :: rest, key => if k = key then some v else lookupProp rest key

/-- Ordinary-object `[[Set]]`: overwrite the existing binding of `key`, or
append a fresh one. -/
def setProp : List (String × JsValue) → String → JsValue → List (String × JsValue)
  | [], key, v => [(key, v)]
  | (k, v') :: rest, key, v =>
      if k = key then (k, v) :: rest else (k, v') :: setProp rest key v

/-- Embeds `js_sys::Reflect::get`: property lookup on the target. Succeeds on any
object (yielding `undefined` for an absent key) and throws a `TypeError`
on a non-object target, as `Reflect.get` does. -/
def Reflect.get (target key : JsValue) : Except JsValue JsValue :=
  match target with
  | .obj props => .ok ((lookupProp props key.toPropKey).getD .undefined)
  | _ => .error (.str "TypeError")

/-- Modelled from the spec: the host-defined condition under which the
property-set primitive (`js_sys::Reflect::set`) reports failure — "Fails
with a HostFailure if the underlying property-set primitive reports
failure (host-defined condition, e.g., invalid key)". `reject key value`
is `some e` when the host throws the error value `e` for that write. -/
structure PropertySetHost where
  reject : String → JsValue → Option JsValue

/-- Embeds `js_sys::Reflect::set` on an ordinary object: errors when the host
rejects the write, otherwise stores the property. -/
def Reflect.set (host : PropertySetHost) (target : List (String × JsValue))
    (key : String) (value : JsValue) : Except JsValue (List (String × JsValue)) :=
  match host.reject key value with
  | some e => .error e
  | none => .ok (setProp target key value)

/-- Embeds `js_sys::Object::keys`: the own property names, as JS strings, in
property order. -/
def Object.keys : JsValue → List JsValue
  | .obj props => props.map (fun kv => JsValue.str kv.1)
  | _ => []

/-- Embeds `js_sys::Object::values`: the own property values, in property order. -/
def Object.values : JsValue → List JsValue
  | .obj props => props.map (fun kv => kv.2)
  | _ => []

/-- Modelled from the spec: the error of the external structured-serializer
crate (`serde_wasm_bindgen::Error`), raised when a value "could not be
converted to/from the host's dynamic value representation (e.g.,
unsupported field type, cyclic reference)". -/
inductive SerdeError where
  | unsupported (desc : String)
deriving DecidableEq, Repr

/-- Embeds `error::Error` from `src/lib.rs`: tags a failure as a serialization
failure or a host-reported failure, wrapping the underlying value. -/
inductive Error where
  | SerdeWasmBindgen (e : SerdeError)
  | JsValue (e : JsValue)

/-- Embeds `utils::map_to_js_value`: element-wise conversion of a homogeneous list
into the host's dynamic value list. `conv` is the `Into<JsValue>`
conversion of the element type (total by its type). -/
def map_to_js_value {T : Type} (conv : T → JsValue) (vec : List T) : List JsValue :=
  vec.map conv

/-- Embeds `utils::create_object_with_property`: allocate a fresh empty object and
set the single property `key` to the converted `value`; a host rejection
of the property set is surfaced as `Error.JsValue`. -/
def create_object_with_property (host : PropertySetHost) (key : String)
    (value : JsValue) : Except Error (List (String × JsValue)) :=
  match Reflect.set host [] key value with
  | .error e => .error (.JsValue e)
  | .ok data => .ok data

/-- One invocation of a host storage primitive, tagged with the namespace
(`"local"` or `"sync"`) the extern is bound to. `κ` is the type of the
callback values handed to the host. -/
inductive HostCall (κ : Type) where
  | getOne (ns : String) (key : String) (cb : κ)
  | getMultiple (ns : String) (keys : List JsValue) (cb : κ)
  | setFire (ns : String) (data : JsValue)
  | setThen (ns : String) (data : JsValue) (cb : κ)

/-- Rebind a host call to another namespace, leaving everything else as is. -/
def HostCall.retag {κ : Type} (ns : String) : HostCall κ → HostCall κ
  | .getOne _ key cb => .getOne ns key cb
  | .getMultiple _ keys cb => .getMultiple ns keys cb
  | .setFire _ data => .setFire ns data
  | .setThen _ data cb => .setThen ns data cb

/-- Modelled from the spec: which completion callbacks the host will invoke
for a set call, each exactly once — the fire-and-forget variant notifies
nobody, the callback variant invokes its callback "exactly once after the
host reports completion". -/
def HostCall.completionInvocations {κ : Type} : HostCall κ → List κ
  | .setThen _ _ cb => [cb]
  | _ => []

/-- Modelled from the spec: a structured record field value for the bulk
write path — "plain data: numbers, strings, booleans — no function
values"; `sFunc` stands for a field outside the host serialization
contract. -/
inductive SValue where
  | sNull
  | sBool (b : Bool)
  | sNum (n : Int)
  | sStr (s : String)
  | sFunc
deriving DecidableEq, Repr

/-- Modelled from the spec: conversion of one structured field value to the
host's dynamic representation; fails on a non-serializable value. -/
def svalueToJs : SValue → Except SerdeError JsValue
  | .sNull => .ok .null
  | .sBool b => .ok (.bool b)
  | .sNum n => .ok (.num n)
  | .sStr s => .ok (.str s)
  | .sFunc => .error (.unsupported "function values are not serializable")

/-- Modelled from the spec: field-by-field serialization of a structured
record, aborting at the first field whose value conversion fails. -/
def to_value_fields : List (String × SValue) → Except SerdeError (List (String × JsValue))
  | [] => .ok []
  | (k, v) :: rest =>
    match svalueToJs v with
    | .error e => .error e
    | .ok j =>
      match to_value_fields rest with
      | .error e => .error e
      | .ok js => .ok ((k, j) :: js)

/-- Modelled from the spec: `serde_wasm_bindgen::to_value` on a structured
record — serializes "the entire structured record into a single dynamic
object in one pass", failing if conversion "fails for any field". -/
def to_value (record : List (String × SValue)) : Except SerdeError JsValue :=
  (to_value_fields record).map JsValue.obj

/-!
`storage::local` (`src/lib.rs` lines 29–88). The extern primitives are the
wasm-bindgen bindings to `chrome.storage.local.get` / `.set`; invoking one
is modelled as emitting the corresponding `HostCall` tagged `"local"`.
The stateful Rust functions are modelled with an explicit call trace:
`set_one`/`set_multiple` return the `Result` of the Rust function paired
with the list of host calls issued during the call.
-/

namespace storage.localNs

variable {κ : Type} {T : Type}

/-- Extern `chrome.storage.local.get` with a single key (`js_name = get`). -/
def get_one (key : String) (callback : κ) : HostCall κ :=
  .getOne "local" key callback

/-- Extern `chrome.storage.local.get` with a key list (`_get_multiple`). -/
def _get_multiple (keys : List JsValue) (callback : κ) : HostCall κ :=
  .getMultiple "local" keys callback

/-- Extern `chrome.storage.local.set`, fire-and-forget variant (`_set`). -/
def _set (data : JsValue) : HostCall κ :=
  .setFire "local" data

/-- Extern `chrome.storage.local.set` with completion callback
(`_set_and_then`). -/
def _set_and_then (data : JsValue) (callback : κ) : HostCall κ :=
  .setThen "local" data callback

/-- Embeds `storage::local::get_multiple`: convert the keys and invoke the host
get primitive. -/
def get_multiple (keys : List String) (callback : κ) : HostCall κ :=
  _get_multiple (map_to_js_value JsValue.str keys) callback

/-- Embeds `storage::local::_set_optional_callback`: dispatch to the
fire-and-forget or the completion-callback set primitive. -/
def _set_optional_callback (data : JsValue) (callback : Option κ) : HostCall κ :=
  match callback with
  | none => _set data
  | some c => _set_and_then data c

/-- Embeds `storage::local::set_one`: build the one-property object (propagating
its error) and write it; `conv` is the `Into<JsValue>` conversion of `T`. -/
def set_one (host : PropertySetHost) (key : String) (conv : T → JsValue)
    (value : T) (callback : Option κ) : Except Error Unit × List (HostCall κ) :=
  match create_object_with_property host key (conv value) with
  | .error e => (.error e, [])
  | .ok data => (.ok (), [_set_optional_callback (JsValue.obj data) callback])

/-- Embeds `storage::local::set_multiple`: serialize the record (propagating the
serializer's error) and write it. -/
def set_multiple (record : List (String × SValue)) (callback : Option κ) :
    Except Error Unit × List (HostCall κ) :=
  match to_value record with
  | .error e => (.error (.SerdeWasmBindgen e), [])
  | .ok data => (.ok (), [_set_optional_callback data callback])

end storage.localNs

/-!
`storage::sync` (`src/lib.rs` lines 90–149): textually identical to
`storage::local` except that every extern is bound to
`chrome.storage.sync`.
-/

namespace storage.syncNs

variable {κ : Type} {T : Type}

/-- Extern `chrome.storage.sync.get` with a single key (`js_name = get`). -/
def get_one (key : String) (callback : κ) : HostCall κ :=
  .getOne "sync" key callback

/-- Extern `chrome.storage.sync.get` with a key list (`_get_multiple`). -/
def _get_multiple (keys : List JsValue) (callback : κ) : HostCall κ :=
  .getMultiple "sync" keys callback

/-- Extern `chrome.storage.sync.set`, fire-and-forget variant (`_set`). -/
def _set (data : JsValue) : HostCall κ :=
  .setFire "sync" data

/-- Extern `chrome.storage.sync.set` with completion callback
(`_set_and_then`). -/
def _set_and_then (data : JsValue) (callback : κ) : HostCall κ :=
  .setThen "sync" data callback

/-- Embeds `storage::sync::get_multiple`: convert the keys and invoke the host
get primitive. -/
def get_multiple (keys : List String) (callback : κ) : HostCall κ :=
  _get_multiple (map_to_js_value JsValue.str keys) callback

/-- Embeds `storage::sync::_set_optional_callback`: dispatch to the
fire-and-forget or the completion-callback set primitive. -/
def _set_optional_callback (data : JsValue) (callback : Option κ) : HostCall κ :=
  match callback with
  | none => _set data
  | some c => _set_and_then data c

/-- Embeds `storage::sync::set_one`: build the one-property object (propagating
its error) and write it; `conv` is the `Into<JsValue>` conversion of `T`. -/
def set_one (host : PropertySetHost) (key : String) (conv : T → JsValue)
    (value : T) (callback : Option κ) : Except Error Unit × List (HostCall κ) :=
  match create_object_with_property host key (conv value) with
  | .error e => (.error e, [])
  | .ok data => (.ok (), [_set_optional_callback (JsValue.obj data) callback])

/-- Embeds `storage::sync::set_multiple`: serialize the record (propagating the
serializer's error) and write it. -/
def set_multiple (record : List (String × SValue)) (callback : Option κ) :
    Except Error Unit × List (HostCall κ) :=
  match to_value record with
  | .error e => (.error (.SerdeWasmBindgen e), [])
  | .ok data => (.ok (), [_set_optional_callback data callback])

end storage.syncNs

/-!
`storage::on_changed` (`src/lib.rs` lines 151–183) and the result
normalization closure `storage::create_get_one_closure` (lines 185–206).
-/

/-- Getter `StorageChange::old_value` (wasm-bindgen structural getter for
the `oldValue` property): `undefined` when the property is absent. -/
def StorageChange.old_value (this : JsValue) : JsValue :=
  match this with
  | .obj props => (lookupProp props "oldValue").getD .undefined
  | _ => .undefined

/-- Getter `StorageChange::new_value` (wasm-bindgen structural getter for
the `newValue` property): `undefined` when the property is absent. -/
def StorageChange.new_value (this : JsValue) : JsValue :=
  match this with
  | .obj props => (lookupProp props "newValue").getD .undefined
  | _ => .undefined

/-- Modelled from the spec: the ChangeRecord view of one raw change value —
"a pair (old_value: optional StorageValue, new_value: optional
StorageValue)"; an absent (`undefined`) getter result is `none`. -/
def changeRecord (c : JsValue) : Option JsValue × Option JsValue :=
  ((if (StorageChange.old_value c).isUndefined then none else some (StorageChange.old_value c)),
   (if (StorageChange.new_value c).isUndefined then none else some (StorageChange.new_value c)))

/-- The key conversion step of `storage::on_changed::create_listener`:
`Object::keys(..).map(|v| v.as_string().unwrap())`. `none` models the
`unwrap` panic on a non-string property name. -/
def listenerKeys : List JsValue → Option (List String)
  | [] => some []
  | k :: rest =>
    match JsValue.asString k with
    | none => none
    | some s => (listenerKeys rest).map (fun t => s :: t)

/-- Embeds `storage::on_changed::create_listener`: adapt a typed callback into the
host's raw `(changes, namespace)` shape — enumerate keys and values of the
raw object, zip them, and hand the map and the namespace to `callback`.
The result is `none` exactly when the closure panics (a property name of
the raw object failed string conversion). -/
def create_listener {α : Type} (callback : List (String × JsValue) → String → α)
    (changes : JsValue) (ns : String) : Option α :=
  match listenerKeys (Object.keys changes) with
  | none => none
  | some keys => some (callback (keys.zip (Object.values changes)) ns)

/-- Embeds `storage::create_get_one_closure`: wrap `callback` so that it receives
`none` when `Reflect::get` of `key` on the raw result errs or yields
`undefined`, and `some v` for the value `v` found otherwise. -/
def create_get_one_closure {α : Type} (callback : Option JsValue → α)
    (key : String) (data : JsValue) : α :=
  let value := Reflect.get data (JsValue.str key)
  let value := match value with
    | .ok v => if v.isUndefined then none else some v
    | .error _ => none
  callback value


/-- A host whose property-set primitive accepts every write. -/
def acceptingHost : PropertySetHost := ⟨fun _ _ => none⟩

/-- A host whose property-set primitive rejects every write with a quota
error value. -/
def rejectingHost : PropertySetHost := ⟨fun _ _ => some (JsValue.str "quota exceeded")⟩

/-- All completion callbacks the host will invoke across a trace of host
calls, in order. -/
def traceInvocations {κ : Type} (trace : List (HostCall κ)) : List κ :=
  trace.flatMap HostCall.completionInvocations

/-- A value is flagged undefined by `is_undefined` iff it is the `undefined`
sentinel. -/
theorem JsValue.isUndefined_eq_true_iff (v : JsValue) :
    v.isUndefined = true ↔ v = JsValue.undefined := by
  cases v <;> simp [JsValue.isUndefined]

/-- Field-wise serialization of a record fails iff some field's value
conversion fails. -/
theorem to_value_fields_error_iff (record : List (String × SValue)) :
    (∃ e, to_value_fields record = Except.error e) ↔
      ∃ kv ∈ record, ∃ e, svalueToJs kv.2 = Except.error e := by
  induction record with
  | nil => simp [to_value_fields]
  | cons kv rest ih =>
    obtain ⟨k, v⟩ := kv
    cases hv : svalueToJs v with
    | error e =>
      simp only [to_value_fields, hv]
      constructor
      · intro _
        exact ⟨(k, v), List.mem_cons_self _ _, e, hv⟩
      · intro _
        exact ⟨e, rfl⟩
    | ok j =>
      cases hr : to_value_fields rest with
      | error e =>
        simp only [to_value_fields, hv, hr]
        constructor
        · intro _
          obtain ⟨kv', hmem, he⟩ := ih.mp ⟨e, hr⟩
          exact ⟨kv', List.mem_cons_of_mem _ hmem, he⟩
        · intro _
          exact ⟨e, rfl⟩
      | ok js =>
        simp only [to_value_fields, hv, hr]
        constructor
        · rintro ⟨e, he⟩
          exact absurd he (by simp)
        · rintro ⟨kv', hmem, e, he⟩
          rcases List.mem_cons.mp hmem with h | h
          · subst h
            simp [hv] at he
          · exact absurd (ih.mpr ⟨kv', h, e, he⟩) (by simp [hr])

/-- On an object event, the listener adapter never panics and hands the
callback exactly the object's own property list with the namespace. -/
theorem create_listener_obj {α : Type}
    (callback : List (String × JsValue) → String → α)
    (props : List (String × JsValue)) (ns : String) :
    create_listener callback (JsValue.obj props) ns = some (callback props ns) := by
  have hkeys : listenerKeys (Object.keys (JsValue.obj props)) =
      some (props.map Prod.fst) := by
    show listenerKeys (props.map (fun kv => JsValue.str kv.1)) = _
    induction props with
    | nil => rfl
    | cons a t iht => simp [listenerKeys, JsValue.asString, iht]
  have hzip : (props.map Prod.fst).zip (props.map Prod.snd) = props :=
    Eq.symm (List.zip_of_prod rfl rfl)
  simp [create_listener, hkeys, Object.values, hzip]

/-- C1: the callback produced by `create_get_one_closure(key, cb)` delivers
`none` to `cb` exactly when the `Reflect::get` lookup of `key` on the raw
host result errs or yields the `undefined` sentinel, and delivers `some v`
otherwise, where `v` is the value found at `key`; delivery to an arbitrary
`cb` factors through the delivery to the identity callback. -/
theorem c1_get_one_closure_normalization (key : String) (data : JsValue) :
    (∀ {α : Type} (cb : Option JsValue → α),
      create_get_one_closure cb key data =
        cb (create_get_one_closure id key data)) ∧
    (create_get_one_closure id key data = none ↔
      (∃ e, Reflect.get data (JsValue.str key) = Except.error e) ∨
        Reflect.get data (JsValue.str key) = Except.ok JsValue.undefined) ∧
    (∀ v, create_get_one_closure id key data = some v →
      Reflect.get data (JsValue.str key) = Except.ok v ∧ v ≠ JsValue.undefined) ∧
    (∀ v, Reflect.get data (JsValue.str key) = Except.ok v → v ≠ JsValue.undefined →
      create_get_one_closure id key data = some v) := by
  refine ⟨fun cb => rfl, ?_, ?_, ?_⟩
  · unfold create_get_one_closure
    cases h : Reflect.get data (JsValue.str key) with
    | error e => simp
    | ok v =>
      by_cases hv : v = JsValue.undefined
      · subst hv; simp [JsValue.isUndefined]
      · simp_all [JsValue.isUndefined_eq_true_iff, hv]
  · intro v hv
    unfold create_get_one_closure at hv
    cases h : Reflect.get data (JsValue.str key) with
    | error e => simp [h] at hv
    | ok w =>
      simp only [h] at hv
      by_cases hw : w = JsValue.undefined
      · subst hw; simp [JsValue.isUndefined] at hv
      · have : (JsValue.isUndefined w) = false := by
          cases w <;> simp_all [JsValue.isUndefined]
        simp [this] at hv
        subst hv
        exact ⟨rfl, hw⟩
  · intro v h hv
    unfold create_get_one_closure
    have : (JsValue.isUndefined v) = false := by
      cases v <;> simp_all [JsValue.isUndefined]
    simp [h, this]

/-- Witness for C1 at `key = "k"`, `data = {"k": 3}`. -/
theorem c1_witness :
    Reflect.get (JsValue.obj [("k", JsValue.num 3)]) (JsValue.str "k") =
        Except.ok (JsValue.num 3) ∧ JsValue.num 3 ≠ JsValue.undefined :=
  (c1_get_one_closure_normalization "k" (JsValue.obj [("k", JsValue.num 3)])).2.2.1
    (JsValue.num 3) rfl

/-- C2: for every key and every value of a type with an `Into<JsValue>`
conversion, `create_object_with_property` starts from a fresh empty object
and, whenever the host property-set primitive accepts the write, returns
an object whose only own property is `key`, holding the converted value;
moreover any successfully returned object has exactly that shape. -/
theorem c2_create_object_with_property_single (host : PropertySetHost)
    (key : String) {T : Type} (conv : T → JsValue) (value : T) :
    (host.reject key (conv value) = none →
      create_object_with_property host key (conv value) =
        Except.ok [(key, conv value)]) ∧
    (∀ o, create_object_with_property host key (conv value) = Except.ok o →
      o = [(key, conv value)] ∧ o.map Prod.fst = [key] ∧
        lookupProp o key = some (conv value)) := by
  constructor
  · intro h
    simp [create_object_with_property, Reflect.set, h, setProp]
  · intro o ho
    unfold create_object_with_property Reflect.set at ho
    cases h : host.reject key (conv value) with
    | some e => simp [h] at ho
    | none =>
      simp [h, setProp] at ho
      subst ho
      refine ⟨rfl, rfl, ?_⟩
      simp [lookupProp]

/-- Witness for C2 with an accepting host at `key = "k"`, value `7`. -/
theorem c2_witness :
    create_object_with_property acceptingHost "k" (id (JsValue.num 7)) =
      Except.ok [("k", JsValue.num 7)] :=
  (c2_create_object_with_property_single acceptingHost "k" id (JsValue.num 7)).1 rfl

/-- C3 (amended): `_set_optional_callback` with `none` invokes the
fire-and-forget primitive `_set` and with `some f` the completion-callback
variant `_set_and_then` with `f`, in both namespaces; every `set_one` and
`set_multiple` call with `on_done = none` never has any completion
callback invoked; and every such call with `on_done = some f` that returns
success issues the completion-callback variant with `f`, so the host
invokes `f` exactly once on completion. -/
theorem c3_optional_callback_dispatch {κ T : Type} (host : PropertySetHost)
    (key : String) (conv : T → JsValue) (value : T)
    (record : List (String × SValue)) (data : JsValue) (f : κ) :
    (storage.localNs._set_optional_callback data (none : Option κ) =
        storage.localNs._set data ∧
      storage.localNs._set_optional_callback data (some f) =
        storage.localNs._set_and_then data f ∧
      storage.syncNs._set_optional_callback data (none : Option κ) =
        storage.syncNs._set data ∧
      storage.syncNs._set_optional_callback data (some f) =
        storage.syncNs._set_and_then data f) ∧
    (traceInvocations (storage.localNs.set_one host key conv value
        (none : Option κ)).2 = [] ∧
      traceInvocations (storage.localNs.set_multiple record (none : Option κ)).2 = [] ∧
      traceInvocations (storage.syncNs.set_one host key conv value
        (none : Option κ)).2 = [] ∧
      traceInvocations (storage.syncNs.set_multiple record (none : Option κ)).2 = []) ∧
    ((storage.localNs.set_one host key conv value (none : Option κ)).1 =
        Except.ok () →
      (storage.localNs.set_one host key conv value (none : Option κ)).2 =
        [storage.localNs._set (JsValue.obj [(key, conv value)])]) ∧
    ((storage.localNs.set_one host key conv value (some f)).1 = Except.ok () →
      (storage.localNs.set_one host key conv value (some f)).2 =
          [storage.localNs._set_and_then (JsValue.obj [(key, conv value)]) f] ∧
        traceInvocations (storage.localNs.set_one host key conv value (some f)).2 =
          [f]) ∧
    ((storage.localNs.set_multiple record (some f)).1 = Except.ok () →
      traceInvocations (storage.localNs.set_multiple record (some f)).2 = [f]) ∧
    ((storage.syncNs.set_one host key conv value (some f)).1 = Except.ok () →
      (storage.syncNs.set_one host key conv value (some f)).2 =
          [storage.syncNs._set_and_then (JsValue.obj [(key, conv value)]) f] ∧
        traceInvocations (storage.syncNs.set_one host key conv value (some f)).2 =
          [f]) ∧
    ((storage.syncNs.set_multiple record (some f)).1 = Except.ok () →
      traceInvocations (storage.syncNs.set_multiple record (some f)).2 = [f]) := by
  refine ⟨⟨rfl, rfl, rfl, rfl⟩, ⟨?_, ?_, ?_, ?_⟩, ?_, ?_, ?_, ?_, ?_⟩
  · cases h : host.reject key (conv value) <;>
      simp [storage.localNs.set_one, create_object_with_property, Reflect.set, h,
        traceInvocations, HostCall.completionInvocations,
        storage.localNs._set_optional_callback, storage.localNs._set]
  · cases hr : to_value_fields record <;>
      simp [storage.localNs.set_multiple, to_value, Except.map, hr,
        traceInvocations, HostCall.completionInvocations,
        storage.localNs._set_optional_callback, storage.localNs._set]
  · cases h : host.reject key (conv value) <;>
      simp [storage.syncNs.set_one, create_object_with_property, Reflect.set, h,
        traceInvocations, HostCall.completionInvocations,
        storage.syncNs._set_optional_callback, storage.syncNs._set]
  · cases hr : to_value_fields record <;>
      simp [storage.syncNs.set_multiple, to_value, Except.map, hr,
        traceInvocations, HostCall.completionInvocations,
        storage.syncNs._set_optional_callback, storage.syncNs._set]
  · cases h : host.reject key (conv value) <;>
      simp [storage.localNs.set_one, create_object_with_property, Reflect.set, h,
        setProp, storage.localNs._set_optional_callback, storage.localNs._set]
  · cases h : host.reject key (conv value) <;>
      simp [storage.localNs.set_one, create_object_with_property, Reflect.set, h,
        setProp, traceInvocations, HostCall.completionInvocations,
        storage.localNs._set_optional_callback, storage.localNs._set_and_then]
  · cases hr : to_value_fields record <;>
      simp [storage.localNs.set_multiple, to_value, Except.map, hr,
        traceInvocations, HostCall.completionInvocations,
        storage.localNs._set_optional_callback, storage.localNs._set_and_then]
  · cases h : host.reject key (conv value) <;>
      simp [storage.syncNs.set_one, create_object_with_property, Reflect.set, h,
        setProp, traceInvocations, HostCall.completionInvocations,
        storage.syncNs._set_optional_callback, storage.syncNs._set_and_then]
  · cases hr : to_value_fields record <;>
      simp [storage.syncNs.set_multiple, to_value, Except.map, hr,
        traceInvocations, HostCall.completionInvocations,
        storage.syncNs._set_optional_callback, storage.syncNs._set_and_then]

/-- Counterexample to C3 as stated: a `set_multiple` call whose record has a
non-serializable field and whose `on_done` is `some 0` issues no host set
call at all, so the completion-callback variant is not invoked with the
callback and the callback is never invoked (not exactly once). -/
theorem c3_counterexample :
    (storage.localNs.set_multiple [("k", SValue.sFunc)] (some 0)).2 =
        ([] : List (HostCall Nat)) ∧
      traceInvocations
        (storage.localNs.set_multiple [("k", SValue.sFunc)] (some 0)).2 = [] :=
  ⟨rfl, rfl⟩

/-- Witness for C3 (amended) at a succeeding `set_one` with `on_done = some 0`. -/
theorem c3_witness :
    (storage.localNs.set_one acceptingHost "k" id (JsValue.num 2)
          (some 0)).1 = Except.ok () ∧
      (storage.localNs.set_one acceptingHost "k" id (JsValue.num 2) (some 0)).2 =
          [storage.localNs._set_and_then (JsValue.obj [("k", JsValue.num 2)]) 0] ∧
        traceInvocations
          (storage.localNs.set_one acceptingHost "k" id (JsValue.num 2)
            (some 0)).2 = [0] :=
  ⟨rfl, (c3_optional_callback_dispatch acceptingHost "k" id (JsValue.num 2)
    [] JsValue.undefined 0).2.2.2.1 rfl⟩

/-- C4: `set_multiple` (in either namespace) returns a SerializationFailure
iff structured-to-dynamic conversion fails for some field of the record;
every error it returns is a SerializationFailure and is raised with an
empty host-call trace, so no write — full or partial — is attempted. -/
theorem c4_set_multiple_serialization_failure {κ : Type}
    (record : List (String × SValue)) (callback : Option κ) :
    ((∃ e, (storage.localNs.set_multiple record callback).1 =
        Except.error (Error.SerdeWasmBindgen e)) ↔
      ∃ kv ∈ record, ∃ e, svalueToJs kv.2 = Except.error e) ∧
    (∀ err, (storage.localNs.set_multiple record callback).1 = Except.error err →
      (storage.localNs.set_multiple record callback).2 = [] ∧
        ∃ e, err = Error.SerdeWasmBindgen e) ∧
    ((∃ e, (storage.syncNs.set_multiple record callback).1 =
        Except.error (Error.SerdeWasmBindgen e)) ↔
      ∃ kv ∈ record, ∃ e, svalueToJs kv.2 = Except.error e) ∧
    (∀ err, (storage.syncNs.set_multiple record callback).1 = Except.error err →
      (storage.syncNs.set_multiple record callback).2 = [] ∧
        ∃ e, err = Error.SerdeWasmBindgen e) := by
  unfold storage.localNs.set_multiple storage.syncNs.set_multiple to_value
  cases hr : to_value_fields record with
  | error e =>
    have hmem := (to_value_fields_error_iff record).mp ⟨e, hr⟩
    simp [Except.map, hmem]
  | ok js =>
    have hnone : ¬ ∃ kv ∈ record, ∃ e, svalueToJs kv.2 = Except.error e := by
      intro h
      obtain ⟨e, he⟩ := (to_value_fields_error_iff record).mpr h
      simp [hr] at he
    simp [Except.map, hnone]

/-- Witness for C4 at the one-field record whose value is not serializable. -/
theorem c4_witness :
    (storage.localNs.set_multiple [("k", SValue.sFunc)] (none : Option Unit)).2 = [] ∧
      ∃ e, Error.SerdeWasmBindgen (SerdeError.unsupported
          "function values are not serializable") = Error.SerdeWasmBindgen e :=
  (c4_set_multiple_serialization_failure [("k", SValue.sFunc)]
      (none : Option Unit)).2.1
    (Error.SerdeWasmBindgen (SerdeError.unsupported
      "function values are not serializable")) rfl

/-- C5: `set_one` never returns a SerializationFailure (its value conversion
`conv` is a total function); it returns a HostFailure carrying the host's
raw error value exactly when the host rejects the write synchronously, in
which case no host set call is issued; otherwise it returns success. -/
theorem c5_set_one_error_behaviour (host : PropertySetHost) (key : String)
    {T κ : Type} (conv : T → JsValue) (value : T) (callback : Option κ) :
    (∀ e, (storage.localNs.set_one host key conv value callback).1 ≠
        Except.error (Error.SerdeWasmBindgen e)) ∧
    (∀ e, host.reject key (conv value) = some e →
      (storage.localNs.set_one host key conv value callback).1 =
          Except.error (Error.JsValue e) ∧
        (storage.localNs.set_one host key conv value callback).2 = []) ∧
    (host.reject key (conv value) = none →
      (storage.localNs.set_one host key conv value callback).1 = Except.ok ()) := by
  unfold storage.localNs.set_one create_object_with_property Reflect.set
  cases h : host.reject key (conv value) <;> simp

/-- Witness for C5 with a host that rejects the write with a quota error. -/
theorem c5_witness :
    (storage.localNs.set_one rejectingHost "k" id (JsValue.num 1)
          (none : Option Unit)).1 =
        Except.error (Error.JsValue (JsValue.str "quota exceeded")) ∧
      (storage.localNs.set_one rejectingHost "k" id (JsValue.num 1)
          (none : Option Unit)).2 = [] :=
  (c5_set_one_error_behaviour rejectingHost "k" id (JsValue.num 1) none).2.1
    (JsValue.str "quota exceeded") rfl

/-- C6: `map_to_js_value` equals the element-wise conversion of its input:
same length, order preserved index by index, nothing filtered, and no
error path (it is a total function into `List JsValue`). -/
theorem c6_map_to_js_value_elementwise {T : Type} (conv : T → JsValue) (vec : List T) :
    map_to_js_value conv vec = vec.map conv ∧
    (map_to_js_value conv vec).length = vec.length ∧
    ∀ i : Nat, (map_to_js_value conv vec)[i]? = (vec[i]?).map conv := by
  refine ⟨rfl, by simp [map_to_js_value], fun i => ?_⟩
  simp [map_to_js_value]

/-- C7: the adapter produced by `create_listener` enumerates the raw change
object's own property names and values, zips names with their wrapped
change records, and delivers to the typed callback exactly one entry per
changed key together with the unchanged namespace string; on the event
`{"a": {oldValue: 1, newValue: 2}, "b": {newValue: 5}}` with namespace
`"local"` it delivers exactly `a -> (some 1, some 2)` and
`b -> (none, some 5)`. -/
theorem c7_create_listener_changeset {α : Type} (props : List (String × JsValue))
    (ns : String) (callback : List (String × JsValue) → String → α) :
    (create_listener callback (JsValue.obj props) ns = some (callback props ns)) ∧
    ((props.map Prod.fst).Nodup →
      ∀ k ∈ props.map Prod.fst, (props.map Prod.fst).count k = 1) ∧
    (create_listener (fun m s => (m.map (fun kv => (kv.1, changeRecord kv.2)), s))
        (JsValue.obj
          [("a", JsValue.obj [("oldValue", JsValue.num 1), ("newValue", JsValue.num 2)]),
           ("b", JsValue.obj [("newValue", JsValue.num 5)])]) "local" =
      some ([("a", (some (JsValue.num 1), some (JsValue.num 2))),
             ("b", (none, some (JsValue.num 5)))], "local")) := by
  refine ⟨create_listener_obj callback props ns, ?_, rfl⟩
  intro hnd k hk
  exact List.count_eq_one_of_mem hnd hk

/-- Witness for C7 at a concrete two-key change object with distinct keys. -/
theorem c7_witness :
    create_listener (fun (m : List (String × JsValue)) (s : String) => (m, s))
        (JsValue.obj [("a", JsValue.num 1), ("b", JsValue.num 2)]) "local" =
      some ([("a", JsValue.num 1), ("b", JsValue.num 2)], "local") ∧
    (([("a", JsValue.num 1), ("b", JsValue.num 2)].map Prod.fst).count "a") = 1 :=
  ⟨(c7_create_listener_changeset [("a", JsValue.num 1), ("b", JsValue.num 2)] "local"
      (fun m s => (m, s))).1,
   (c7_create_listener_changeset [("a", JsValue.num 1), ("b", JsValue.num 2)] "local"
      (fun m s => (m, s))).2.1 (by decide) "a" (by decide)⟩

/-- C8: in the change-listener adapter the key conversion aborts (the
`unwrap` panic, modelled as `none`) exactly when some enumerated property
name cannot be interpreted as a string; for change events that are
objects — whose own property names are all strings — the adapter never
reaches that abort branch. -/
theorem c8_listener_name_panic (rawKeys : List JsValue) :
    (listenerKeys rawKeys = none ↔ ∃ k ∈ rawKeys, JsValue.asString k = none) ∧
    (∀ (callback : List (String × JsValue) → String → Unit)
      (props : List (String × JsValue)) (ns : String),
      (create_listener callback (JsValue.obj props) ns).isSome = true) := by
  constructor
  · induction rawKeys with
    | nil => simp [listenerKeys]
    | cons k rest ih =>
      cases hk : JsValue.asString k with
      | none =>
        simp only [listenerKeys, hk]
        exact ⟨fun _ => ⟨k, List.mem_cons_self _ _, hk⟩, fun _ => trivial⟩
      | some s =>
        simp only [listenerKeys, hk]
        constructor
        · intro h
          cases hr : listenerKeys rest with
          | none =>
            obtain ⟨k', hmem, hk'⟩ := ih.mp hr
            exact ⟨k', List.mem_cons_of_mem _ hmem, hk'⟩
          | some t => simp [hr] at h
        · rintro ⟨k', hmem, hk'⟩
          rcases List.mem_cons.mp hmem with h | h
          · subst h
            simp [hk'] at hk
          · simp [ih.mpr ⟨k', h, hk'⟩]
  · intro callback props ns
    simp [create_listener_obj]

/-- Witness for C8 at a raw key list containing a non-string name. -/
theorem c8_witness :
    listenerKeys [JsValue.num 0] = none :=
  (c8_listener_name_panic [JsValue.num 0]).1.mpr
    ⟨JsValue.num 0, List.mem_cons_self _ _, rfl⟩

/-- C9: for `get_one`, `get_multiple`, `set_one` and `set_multiple`, the
local-namespace binding and the sync-namespace binding compute identical
results, conversions and error behaviour, the emitted host calls differing
only in the namespace the underlying primitive is bound to. -/
theorem c9_local_sync_symmetry {κ T : Type} (key : String) (keys : List String)
    (cb : κ) (host : PropertySetHost) (conv : T → JsValue) (value : T)
    (ocb : Option κ) (record : List (String × SValue)) (data : JsValue) :
    storage.syncNs.get_one key cb = (storage.localNs.get_one key cb).retag "sync" ∧
    storage.syncNs.get_multiple keys cb =
      (storage.localNs.get_multiple keys cb).retag "sync" ∧
    storage.syncNs._set_optional_callback data ocb =
      (storage.localNs._set_optional_callback data ocb).retag "sync" ∧
    (storage.syncNs.set_one host key conv value ocb).1 =
      (storage.localNs.set_one host key conv value ocb).1 ∧
    (storage.syncNs.set_one host key conv value ocb).2 =
      (storage.localNs.set_one host key conv value ocb).2.map (HostCall.retag "sync") ∧
    (storage.syncNs.set_multiple record ocb).1 =
      (storage.localNs.set_multiple record ocb).1 ∧
    (storage.syncNs.set_multiple record ocb).2 =
      (storage.localNs.set_multiple record ocb).2.map (HostCall.retag "sync") := by
  refine ⟨rfl, rfl, ?_, ?_, ?_, ?_, ?_⟩
  · cases ocb <;> rfl
  · cases h : host.reject key (conv value) <;>
      simp [storage.syncNs.set_one, storage.localNs.set_one,
        create_object_with_property, Reflect.set, h]
  · cases h : host.reject key (conv value) <;>
      cases ocb <;>
      simp [storage.syncNs.set_one, storage.localNs.set_one,
        create_object_with_property, Reflect.set, h, HostCall.retag,
        storage.syncNs._set_optional_callback, storage.localNs._set_optional_callback,
        storage.syncNs._set, storage.localNs._set,
        storage.syncNs._set_and_then, storage.localNs._set_and_then]
  · cases hr : to_value_fields record <;>
      simp [storage.syncNs.set_multiple, storage.localNs.set_multiple,
        to_value, Except.map, hr]
  · cases hr : to_value_fields record <;>
      cases ocb <;>
      simp [storage.syncNs.set_multiple, storage.localNs.set_multiple,
        to_value, Except.map, hr, HostCall.retag,
        storage.syncNs._set_optional_callback, storage.localNs._set_optional_callback,
        storage.syncNs._set, storage.localNs._set,
        storage.syncNs._set_and_then, storage.localNs._set_and_then]

/-- C10: the callback produced by `create_get_one_closure` delivers `some v`
for any defined value `v` stored at the key — including the JavaScript
`null` value; only the `undefined` sentinel and lookup errors collapse to
`none`, so a stored `null` is distinguishable from an absent key. -/
theorem c10_get_one_closure_null_kept (key : String)
    (props : List (String × JsValue)) :
    (∀ v, lookupProp props key = some v → v ≠ JsValue.undefined →
      create_get_one_closure id key (JsValue.obj props) = some v) ∧
    (lookupProp props key = some JsValue.null →
      create_get_one_closure id key (JsValue.obj props) = some JsValue.null) ∧
    (lookupProp props key = none →
      create_get_one_closure id key (JsValue.obj props) = none) := by
  refine ⟨?_, ?_, ?_⟩
  · intro v h hv
    have hund : JsValue.isUndefined v = false := by
      cases v <;> simp_all [JsValue.isUndefined]
    unfold create_get_one_closure
    simp [Reflect.get, JsValue.toPropKey, h, hund]
  · intro h
    unfold create_get_one_closure
    simp [Reflect.get, JsValue.toPropKey, h, JsValue.isUndefined]
  · intro h
    unfold create_get_one_closure
    simp [Reflect.get, JsValue.toPropKey, h, JsValue.isUndefined]

/-- Witness for C10 at an object storing `null` under the looked-up key. -/
theorem c10_witness :
    create_get_one_closure id "k" (JsValue.obj [("k", JsValue.null)]) =
      some JsValue.null :=
  (c10_get_one_closure_null_kept "k" [("k", JsValue.null)]).2.1 rfl
